import Mathlib

/-!
# BODMA-CODMA-PRODMA MCP server and its agent client: a shallow embedding

Definitions follow `src/server.py` and `src/agent.py` of the repository.
Python floats are idealised as exact rational numbers, and tool arguments
are taken at integer values (every argument the specification and its test
vectors mention is integer-valued), so that Python exponentiation stays
inside `ℚ` and every definition is executable.  Python exceptions are
embedded as an explicit error type carried by `Except`.
-/

/-- A Python exception as raised inside the tool bodies of `server.py`:
the constructor records the exception class, the field its message.
`valueError` carries both the InvalidArgument failures and the
availability (Unavailable) failure, since `server.py` raises `ValueError`
for both; `zeroDivisionError` is raised by the Python runtime itself
(for `0.0 ** b` with `b < 0`, and for division by zero). -/
inductive PyError where
  | valueError (msg : String)
  | zeroDivisionError (msg : String)
deriving DecidableEq

/-- The Python exception class name of an error. -/
def PyError.kind : PyError → String
  | .valueError _ => "ValueError"
  | .zeroDivisionError _ => "ZeroDivisionError"

/-- The message carried by an error. -/
def PyError.message : PyError → String
  | .valueError m => m
  | .zeroDivisionError m => m

/-- The exception class of a failed tool result, `none` on success. -/
def errorKind : Except PyError ℚ → Option String
  | .error e => some e.kind
  | .ok _ => none

/-- The error message of a failed tool result, `none` on success. -/
def errorMessage : Except PyError ℚ → Option String
  | .error e => some e.message
  | .ok _ => none

instance {ε α : Type} [DecidableEq ε] [DecidableEq α] : DecidableEq (Except ε α)
  | .error a, .error b => decidable_of_iff (a = b) (by simp)
  | .error _, .ok _ => .isFalse (by simp)
  | .ok _, .error _ => .isFalse (by simp)
  | .ok a, .ok b => decidable_of_iff (a = b) (by simp)

/-- Python `a ** b` at an integer-valued exponent: `0.0 ** b` with `b < 0`
raises `ZeroDivisionError`; otherwise the exact power (`0 ** 0 = 1`,
matching Python). -/
def pyPow (a : ℚ) (b : ℤ) : Except PyError ℚ :=
  if a = 0 ∧ b < 0 then
    .error (.zeroDivisionError "0.0 cannot be raised to a negative power")
  else
    .ok (a ^ b)

/-- Python float division: division by zero raises `ZeroDivisionError`. -/
def pyDiv (x y : ℚ) : Except PyError ℚ :=
  if y = 0 then .error (.zeroDivisionError "float division by zero")
  else .ok (x / y)

/-- The time environment read by `server.py`: the optional `FAKE_NOW_HOUR`
override from `.env` (`none` when unset or empty) and the wall-clock hour
`datetime.now().hour`. -/
structure Env where
  fakeNowHour : Option ℤ
  wallHour : ℤ
deriving DecidableEq

/-- `PRODMA_START_HOUR = 10` in server.py. -/
def PRODMA_START_HOUR : ℤ := 10

/-- `PRODMA_END_HOUR = 22` in server.py. -/
def PRODMA_END_HOUR : ℤ := 22

/-- `current_hour` in server.py: the `FAKE_NOW_HOUR` override when set,
else the wall-clock hour. -/
def current_hour (env : Env) : ℤ :=
  env.fakeNowHour.getD env.wallHour

/-- `prodma_available` in server.py: true when the current hour lies in the
half-open window `[PRODMA_START_HOUR, PRODMA_END_HOUR)`. -/
def prodma_available (env : Env) : Bool :=
  decide (PRODMA_START_HOUR ≤ current_hour env) &&
    decide (current_hour env < PRODMA_END_HOUR)

/-- Message of the `ValueError` raised by `bodma` (server.py line 60). -/
def bodmaErrMsg : String := "a*b cannot be 0 — division by zero"

/-- Message of the `ValueError` raised by `codma` (server.py line 68). -/
def codmaErrMsg : String := "a^b cannot be 0 — division by zero"

/-- Message of the `ValueError` raised by `prodma` outside its window
(server.py line 77, the f-string already formatted). -/
def prodmaErrMsg : String := "PRODMA only available 10:00–22:00"

/-- `bodma` in server.py: raises `ValueError` when `a*b == 0`, else
returns `(a ** b) / (a * b)`. -/
def bodma (a b : ℤ) : Except PyError ℚ :=
  if (a : ℚ) * (b : ℚ) = 0 then
    .error (.valueError bodmaErrMsg)
  else do
    let p ← pyPow (a : ℚ) b
    pyDiv p ((a : ℚ) * (b : ℚ))

/-- `codma` in server.py: evaluates `a ** b` first (inside the guard, so a
`ZeroDivisionError` from the power itself propagates), raises `ValueError`
when the power is zero, else returns `(a * b) / (a ** b)`. -/
def codma (a b : ℤ) : Except PyError ℚ := do
  let p ← pyPow (a : ℚ) b
  if p = 0 then
    .error (.valueError codmaErrMsg)
  else
    pyDiv ((a : ℚ) * (b : ℚ)) p

/-- `prodma` in server.py: guarded at call time by `prodma_available`
before the body runs, then returns `(a ** b) * (b ** a)`. -/
def prodma (env : Env) (a b : ℤ) : Except PyError ℚ :=
  if prodma_available env = false then
    .error (.valueError prodmaErrMsg)
  else do
    let p ← pyPow (a : ℚ) b
    let q ← pyPow (b : ℚ) a
    pure (p * q)

/-- An MCP tool descriptor as registered with FastMCP: name, docstring
description, numeric parameter names and the required list. -/
structure Tool where
  name : String
  description : String
  paramNames : List String
  required : List String
deriving DecidableEq

/-- The descriptor of `bodma` as registered by `@mcp.tool()`. -/
def bodmaTool : Tool :=
  ⟨"bodma", "BODMA: (a^b) / (a*b). Example: bodma(2,3) = 8/6 ≈ 1.333",
   ["a", "b"], ["a", "b"]⟩

/-- The descriptor of `codma` as registered by `@mcp.tool()`. -/
def codmaTool : Tool :=
  ⟨"codma", "CODMA: (a*b) / (a^b). Inverse of BODMA. Example: codma(2,3) = 6/8 = 0.75",
   ["a", "b"], ["a", "b"]⟩

/-- The descriptor of `prodma` as registered by `@mcp.tool()`. -/
def prodmaTool : Tool :=
  ⟨"prodma", "PRODMA: (a^b) * (b^a). Example: prodma(2,3) = 8*9 = 72. Available 10AM-10PM only.",
   ["a", "b"], ["a", "b"]⟩

/-- `_original_list_tools` in server.py: the unfiltered registry listing,
in registration order. -/
def original_list_tools : List Tool :=
  [bodmaTool, codmaTool, prodmaTool]

/-- `_dynamic_list_tools` in server.py: keeps every tool whose name is not
`prodma`, and keeps `prodma` only while `prodma_available` holds. -/
def dynamic_list_tools (env : Env) : List Tool :=
  original_list_tools.filter (fun t => t.name != "prodma" || prodma_available env)

/-- A Gemini function declaration as built by `get_mcp_tools` in agent.py:
name and description carried over, every parameter typed NUMBER (so only
the parameter names matter), required list carried over. -/
structure FunctionDeclaration where
  name : String
  description : String
  paramNames : List String
  required : List String
deriving DecidableEq

/-- `get_mcp_tools` in agent.py: converts the tools returned by the
server's (filtered) listing into Gemini function declarations, one per
tool, in listing order. -/
def get_mcp_tools (env : Env) : List FunctionDeclaration :=
  (dynamic_list_tools env).map (fun t => ⟨t.name, t.description, t.paramNames, t.required⟩)

/-- A model-issued tool call: `part.function_call` with its `name` and
numeric `args` mapping. -/
structure FunctionCall where
  name : String
  args : List (String × ℤ)
deriving DecidableEq

/-- One part of a Gemini content: text, a function call, or a function
response (the response dictionary holds a single result string). -/
inductive ContentPart where
  | text (s : String)
  | functionCall (c : FunctionCall)
  | functionResponse (name : String) (result : String)
deriving DecidableEq

/-- One turn of the conversation: a role and its parts, mirroring
`types.Content` in agent.py. -/
structure Content where
  role : String
  parts : List ContentPart
deriving DecidableEq

/-- The tool-call extraction of agent.py lines 75-79: the function calls
of a model turn, in the order the model emitted them. -/
def extractToolCalls (c : Content) : List FunctionCall :=
  c.parts.filterMap (fun p =>
    match p with
    | .functionCall fc => some fc
    | _ => none)

/-- `response.candidates[0].content.parts[0].text` in agent.py line 102:
the text of the first part of the final model turn, `none` when the first
part is not a text part. -/
def finalText (c : Content) : Option String :=
  match c.parts.head? with
  | some (.text s) => some s
  | _ => none

/-- One result part as built in agent.py lines 93-98: a function response
named after the call, holding the text of the transport's result. -/
def mkResultPart (callTool : FunctionCall → String) (c : FunctionCall) : ContentPart :=
  .functionResponse c.name (callTool c)

/-- The single tool-result turn appended in agent.py line 100: role user,
one result part per call of the batch, in emission order. -/
def resultsTurn (callTool : FunctionCall → String) (calls : List FunctionCall) : Content :=
  ⟨"user", calls.map (mkResultPart callTool)⟩

/-- How one run of the agent loop ended: `fuelOut` when the observation
budget ran out with the loop still going, `done` when the loop itself
exited because a model turn had no tool calls. -/
inductive LoopOutcome where
  | fuelOut
  | done (finalAnswer : Option String)
deriving DecidableEq

/-- Observable trace of one agent invocation: the catalog passed to each
model call in order, the conversation contents, and how the loop ended. -/
structure LoopResult where
  catalogs : List (List FunctionDeclaration)
  contents : List Content
  outcome : LoopOutcome
deriving DecidableEq

/-- The `while True` loop of agent.py lines 66-101, indexed by fuel (the
code has no bound of its own; fuel only limits how long we observe it).
Each iteration calls the model with the fixed `declarations` captured
before the loop and the current contents, appends the model turn, exits
with the final text when the turn has no tool calls, else appends the
single results turn for the batch and repeats. -/
def agentLoopAux (decls : List FunctionDeclaration)
    (model : List FunctionDeclaration → List Content → Content)
    (callTool : FunctionCall → String) :
    Nat → List Content → List (List FunctionDeclaration) → LoopResult
  | 0, cs, cats => ⟨cats, cs, .fuelOut⟩
  | fuel + 1, cs, cats =>
    if extractToolCalls (model decls cs) = [] then
      ⟨cats ++ [decls], cs ++ [model decls cs], .done (finalText (model decls cs))⟩
    else
      agentLoopAux decls model callTool fuel
        (cs ++ [model decls cs] ++ [resultsTurn callTool (extractToolCalls (model decls cs))])
        (cats ++ [decls])

/-- The initial user turn of agent.py line 63. -/
def userTurn (prompt : String) : Content :=
  ⟨"user", [.text prompt]⟩

/-- The `agent` coroutine of agent.py lines 49-103: fetches the catalog
once from the server (line 56, at environment `env0`) before the first
model call, then runs the loop with that same catalog. -/
def agent (env0 : Env) (model : List FunctionDeclaration → List Content → Content)
    (callTool : FunctionCall → String) (prompt : String) (fuel : Nat) : LoopResult :=
  agentLoopAux (get_mcp_tools env0) model callTool fuel [userTurn prompt] []

/-- A model stub that issues two tool calls on the first turn and a final
text turn afterwards (the conversation has one turn before the first
model call, three afterwards). -/
def twoCallModel (_decls : List FunctionDeclaration) (cs : List Content) : Content :=
  if cs.length ≤ 1 then
    ⟨"model", [.functionCall ⟨"bodma", [("a", 2), ("b", 3)]⟩,
               .functionCall ⟨"codma", [("a", 2), ("b", 3)]⟩]⟩
  else
    ⟨"model", [.text "done"]⟩

/-- A model stub that issues one `prodma` call on the first turn and a
final text turn afterwards. -/
def oneCallModel (_decls : List FunctionDeclaration) (cs : List Content) : Content :=
  if cs.length ≤ 1 then
    ⟨"model", [.functionCall ⟨"prodma", [("a", 2), ("b", 3)]⟩]⟩
  else
    ⟨"model", [.text "done"]⟩

/-- A model stub that issues a tool call on every invocation. -/
def alwaysCallModel (_decls : List FunctionDeclaration) (_cs : List Content) : Content :=
  ⟨"model", [.functionCall ⟨"bodma", [("a", 2), ("b", 3)]⟩]⟩

/-- A transport stub returning a fixed result text for every call. -/
def stubCallTool (_c : FunctionCall) : String :=
  "result"

@[simp]
theorem ok_bind {ε α β : Type} (a : α) (f : α → Except ε β) :
    (Except.ok a : Except ε α) >>= f = f a := rfl

@[simp]
theorem error_bind {ε α β : Type} (e : ε) (f : α → Except ε β) :
    (Except.error e : Except ε α) >>= f = Except.error e := rfl

theorem prodma_available_iff (env : Env) :
    prodma_available env = true ↔
      (PRODMA_START_HOUR ≤ current_hour env ∧ current_hour env < PRODMA_END_HOUR) := by
  simp [prodma_available]

theorem dynamic_list_tools_eq (env : Env) :
    dynamic_list_tools env =
      if prodma_available env = true then original_list_tools else [bodmaTool, codmaTool] := by
  by_cases h : prodma_available env = true <;>
    simp [dynamic_list_tools, original_list_tools, h, bodmaTool, codmaTool, prodmaTool,
      List.filter]

theorem bodma_ok (a b : ℤ) (h : (a : ℚ) * (b : ℚ) ≠ 0) :
    bodma a b = .ok ((a : ℚ) ^ b / ((a : ℚ) * (b : ℚ))) := by
  have ha : (a : ℚ) ≠ 0 := fun h0 => h (by rw [h0, zero_mul])
  rw [bodma, if_neg h, pyPow, if_neg (fun hc => ha hc.1), ok_bind, pyDiv, if_neg h]

theorem codma_ok (a b : ℤ) (h1 : ¬((a : ℚ) = 0 ∧ b < 0)) (h2 : (a : ℚ) ^ b ≠ 0) :
    codma a b = .ok (((a : ℚ) * (b : ℚ)) / (a : ℚ) ^ b) := by
  rw [codma, pyPow, if_neg h1, ok_bind, if_neg h2, pyDiv, if_neg h2]

/-- C1: for every hour supplied by the current-hour source (override or
wall clock), the server's tool listing contains `prodma` iff the hour lies
in the half-open window `[10, 22)`, and always contains `bodma` and
`codma`; in particular `prodma` is listed at hours 10 and 21 and not
listed at hours 9 and 22. -/
theorem prodma_listed_iff_in_window (env : Env) :
    (("prodma" ∈ (dynamic_list_tools env).map Tool.name) ↔
      (PRODMA_START_HOUR ≤ current_hour env ∧ current_hour env < PRODMA_END_HOUR))
    ∧ "bodma" ∈ (dynamic_list_tools env).map Tool.name
    ∧ "codma" ∈ (dynamic_list_tools env).map Tool.name
    ∧ "prodma" ∈ (dynamic_list_tools ⟨some 10, 0⟩).map Tool.name
    ∧ "prodma" ∈ (dynamic_list_tools ⟨some 21, 0⟩).map Tool.name
    ∧ "prodma" ∉ (dynamic_list_tools ⟨some 9, 0⟩).map Tool.name
    ∧ "prodma" ∉ (dynamic_list_tools ⟨some 22, 0⟩).map Tool.name := by
  refine ⟨?_, ?_, ?_, by decide, by decide, by decide, by decide⟩
  · rw [← prodma_available_iff env, dynamic_list_tools_eq]
    by_cases h : prodma_available env = true <;>
      simp [h, original_list_tools, bodmaTool, codmaTool, prodmaTool]
  · rw [dynamic_list_tools_eq]
    by_cases h : prodma_available env = true <;>
      simp [h, original_list_tools, bodmaTool, codmaTool, prodmaTool]
  · rw [dynamic_list_tools_eq]
    by_cases h : prodma_available env = true <;>
      simp [h, original_list_tools, bodmaTool, codmaTool, prodmaTool]

/-- Witness for C1: at override hour 11 the listing contains `prodma`. -/
theorem prodma_listed_iff_in_window_witness :
    "prodma" ∈ (dynamic_list_tools ⟨some 11, 0⟩).map Tool.name :=
  (prodma_listed_iff_in_window ⟨some 11, 0⟩).1.mpr (by decide)

/-- C2: invoking `prodma` at any hour outside `[10, 22)` fails with the
availability `ValueError` and never returns a product, regardless of
earlier listings; in particular the listing at hour 11 shows `prodma`,
yet the invocation at hour 23 fails. -/
theorem prodma_stale_invocation_fails :
    (∀ (env : Env) (a b : ℤ),
        ¬(PRODMA_START_HOUR ≤ current_hour env ∧ current_hour env < PRODMA_END_HOUR) →
        prodma env a b = .error (.valueError prodmaErrMsg) ∧ ∀ q : ℚ, prodma env a b ≠ .ok q)
    ∧ "prodma" ∈ (dynamic_list_tools ⟨some 11, 0⟩).map Tool.name
    ∧ prodma ⟨some 23, 0⟩ 2 3 = .error (.valueError prodmaErrMsg) := by
  have key : ∀ (env : Env) (a b : ℤ),
      ¬(PRODMA_START_HOUR ≤ current_hour env ∧ current_hour env < PRODMA_END_HOUR) →
      prodma env a b = .error (.valueError prodmaErrMsg) := by
    intro env a b h
    have hav : prodma_available env = false := by
      rcases Bool.eq_false_or_eq_true (prodma_available env) with hb | hb
      · exact absurd ((prodma_available_iff env).mp hb) h
      · exact hb
    rw [prodma, if_pos hav]
  refine ⟨fun env a b h => ⟨key env a b h, fun q hq => ?_⟩, by decide, ?_⟩
  · rw [key env a b h] at hq
    exact Except.noConfusion hq
  · exact key ⟨some 23, 0⟩ 2 3 (by decide)

/-- Witness for C2: the concrete stale invocation at hour 23 fails. -/
theorem prodma_stale_invocation_fails_witness :
    prodma ⟨some 23, 0⟩ 5 7 = .error (.valueError prodmaErrMsg) :=
  (prodma_stale_invocation_fails.1 ⟨some 23, 0⟩ 5 7 (by decide)).1

/-- C7: each tool computes its defining formula on valid inputs —
`bodma` returns `a^b / (a*b)` whenever `a*b` is nonzero, `codma` returns
`(a*b) / a^b` whenever `a^b` is defined and nonzero, `prodma` returns
`a^b * b^a` whenever the window is open and both powers are defined; in
particular `bodma(2,3) = 8/6`, `codma(2,3) = 6/8` and `prodma(2,3) = 72`
at an in-window hour. -/
theorem tools_compute_their_formulas :
    (∀ a b : ℤ, (a : ℚ) * (b : ℚ) ≠ 0 →
        bodma a b = .ok ((a : ℚ) ^ b / ((a : ℚ) * (b : ℚ))))
    ∧ (∀ a b : ℤ, ¬((a : ℚ) = 0 ∧ b < 0) → (a : ℚ) ^ b ≠ 0 →
        codma a b = .ok (((a : ℚ) * (b : ℚ)) / (a : ℚ) ^ b))
    ∧ (∀ (env : Env) (a b : ℤ), prodma_available env = true →
        ¬((a : ℚ) = 0 ∧ b < 0) → ¬((b : ℚ) = 0 ∧ a < 0) →
        prodma env a b = .ok ((a : ℚ) ^ b * (b : ℚ) ^ a))
    ∧ bodma 2 3 = .ok (8 / 6)
    ∧ codma 2 3 = .ok (6 / 8)
    ∧ prodma ⟨some 11, 0⟩ 2 3 = .ok 72 := by
  refine ⟨bodma_ok, codma_ok, ?_, ?_, ?_, ?_⟩
  · intro env a b hav h1 h2
    rw [prodma, if_neg (by simp [hav]), pyPow, if_neg h1, ok_bind, pyPow, if_neg h2, ok_bind]
    rfl
  · norm_num [bodma, pyPow, pyDiv]
  · norm_num [codma, pyPow, pyDiv]
  · norm_num [prodma, pyPow, prodma_available, current_hour, PRODMA_START_HOUR, PRODMA_END_HOUR]

/-- Witness for C7: the bodma clause applied at the concrete input 2, 3. -/
theorem tools_compute_their_formulas_witness :
    bodma 2 3 = .ok (((2 : ℤ) : ℚ) ^ (3 : ℤ) / (((2 : ℤ) : ℚ) * ((3 : ℤ) : ℚ))) :=
  tools_compute_their_formulas.1 2 3 (by norm_num)

/-- C8: `bodma` fails with the InvalidArgument `ValueError` exactly when
`a*b = 0`, returns `a^b / (a*b)` otherwise, and has no other failure
mode. -/
theorem bodma_error_iff (a b : ℤ) :
    ((a : ℚ) * (b : ℚ) = 0 → bodma a b = .error (.valueError bodmaErrMsg))
    ∧ ((a : ℚ) * (b : ℚ) ≠ 0 → bodma a b = .ok ((a : ℚ) ^ b / ((a : ℚ) * (b : ℚ))))
    ∧ ((∃ e, bodma a b = .error e) ↔ (a : ℚ) * (b : ℚ) = 0)
    ∧ (∀ e, bodma a b = .error e → e = .valueError bodmaErrMsg) := by
  have herr : (a : ℚ) * (b : ℚ) = 0 → bodma a b = .error (.valueError bodmaErrMsg) := by
    intro h
    rw [bodma, if_pos h]
  refine ⟨herr, bodma_ok a b, ⟨?_, fun h => ⟨_, herr h⟩⟩, ?_⟩
  · rintro ⟨e, he⟩
    by_contra h
    rw [bodma_ok a b h] at he
    exact Except.noConfusion he
  · intro e he
    by_cases h : (a : ℚ) * (b : ℚ) = 0
    · rw [herr h] at he
      exact (Except.error.injEq _ _ ▸ he).symm
    · rw [bodma_ok a b h] at he
      exact absurd he (fun hc => Except.noConfusion hc)

/-- Witness for C8: `bodma(0,5)` fails with the InvalidArgument error. -/
theorem bodma_error_iff_witness :
    bodma 0 5 = .error (.valueError bodmaErrMsg) :=
  (bodma_error_iff 0 5).1 (by norm_num)

/-- C9 is refuted at `a = 0, b = -1`: evaluating `a ** b` inside the
guard raises `ZeroDivisionError`, a failure whose kind is not the
InvalidArgument `ValueError` — so a failure mode other than
InvalidArgument does occur for `a = 0` with negative `b`. -/
theorem codma_zero_negexp_counterexample :
    codma 0 (-1) = .error (.zeroDivisionError "0.0 cannot be raised to a negative power")
    ∧ errorKind (codma 0 (-1)) = some "ZeroDivisionError"
    ∧ errorKind (codma 0 (-1)) ≠ some "ValueError" := by
  have h : codma 0 (-1) =
      .error (.zeroDivisionError "0.0 cannot be raised to a negative power") := by
    norm_num [codma, pyPow]
  refine ⟨h, by rw [h]; rfl, by rw [h]; simp [errorKind, PyError.kind]⟩

/-- C9 amended: outside the corner `a = 0 ∧ b < 0`, `codma` fails with
the InvalidArgument `ValueError` exactly when `a^b = 0` and returns
`(a*b) / a^b` otherwise; for `a = 0` with negative `b`, evaluating
`a ** b` in the guard raises `ZeroDivisionError`, a failure mode distinct
from InvalidArgument. -/
theorem codma_error_characterization (a b : ℤ) :
    (((a : ℚ) = 0 ∧ b < 0) →
        codma a b = .error (.zeroDivisionError "0.0 cannot be raised to a negative power"))
    ∧ (¬((a : ℚ) = 0 ∧ b < 0) →
        ((a : ℚ) ^ b = 0 → codma a b = .error (.valueError codmaErrMsg))
        ∧ ((a : ℚ) ^ b ≠ 0 → codma a b = .ok (((a : ℚ) * (b : ℚ)) / (a : ℚ) ^ b))) := by
  refine ⟨?_, fun h1 => ⟨?_, codma_ok a b h1⟩⟩
  · intro h
    rw [codma, pyPow, if_pos h, error_bind]
  · intro h2
    rw [codma, pyPow, if_neg h1, ok_bind, if_pos h2]

/-- Witness for C9 (amended): `codma(0,5)` fails with the InvalidArgument
error since `0^5 = 0`. -/
theorem codma_error_characterization_witness :
    codma 0 5 = .error (.valueError codmaErrMsg) :=
  ((codma_error_characterization 0 5).2 (by norm_num)).1 (by norm_num)

/-- C10: on the common valid domain (`a*b` and `a^b` both nonzero),
`bodma` and `codma` return pointwise multiplicative inverses. -/
theorem bodma_codma_inverse (a b : ℤ) (h1 : (a : ℚ) * (b : ℚ) ≠ 0)
    (h2 : (a : ℚ) ^ b ≠ 0) :
    ∃ x y : ℚ, bodma a b = .ok x ∧ codma a b = .ok y ∧ x * y = 1 := by
  have ha : (a : ℚ) ≠ 0 := fun h0 => h1 (by rw [h0, zero_mul])
  refine ⟨_, _, bodma_ok a b h1, codma_ok a b (fun hc => ha hc.1) h2, ?_⟩
  field_simp

/-- Witness for C10: the inverse relation at the concrete input 2, 3. -/
theorem bodma_codma_inverse_witness :
    ∃ x y : ℚ, bodma 2 3 = .ok x ∧ codma 2 3 = .ok y ∧ x * y = 1 :=
  bodma_codma_inverse 2 3 (by norm_num) (by norm_num)

/-- C5 is refuted: the Unavailable failure of `prodma` and the
InvalidArgument failure of `bodma` are raised with the same Python error
kind (`ValueError`), so the kind alone cannot distinguish them. -/
theorem error_kinds_not_distinct_counterexample :
    errorKind (bodma 0 5) = some "ValueError"
    ∧ errorKind (prodma ⟨some 23, 0⟩ 2 3) = some "ValueError"
    ∧ errorKind (bodma 0 5) = errorKind (prodma ⟨some 23, 0⟩ 2 3) := by
  have h1 : bodma 0 5 = .error (.valueError bodmaErrMsg) := by
    norm_num [bodma]
  have h2 : prodma ⟨some 23, 0⟩ 2 3 = .error (.valueError prodmaErrMsg) := by
    norm_num [prodma, prodma_available, current_hour, PRODMA_START_HOUR, PRODMA_END_HOUR]
  rw [h1, h2]
  exact ⟨rfl, rfl, rfl⟩

/-- C5 amended: both the availability failure and the domain failure are
raised as the same error kind `ValueError`; a caller can distinguish them
only by the message text, which does differ. -/
theorem unavailable_and_invalid_argument_same_kind (env : Env) (a b c d : ℤ)
    (hunav : prodma_available env = false) (hdom : (c : ℚ) * (d : ℚ) = 0) :
    errorKind (prodma env a b) = some "ValueError"
    ∧ errorKind (bodma c d) = some "ValueError"
    ∧ errorKind (prodma env a b) = errorKind (bodma c d)
    ∧ errorMessage (prodma env a b) ≠ errorMessage (bodma c d) := by
  rw [prodma, if_pos hunav, bodma, if_pos hdom]
  refine ⟨rfl, rfl, rfl, ?_⟩
  simp [errorMessage, PyError.message, prodmaErrMsg, bodmaErrMsg]

/-- Witness for C5 (amended): at hour 23 and domain input (0,5) both
errors carry kind ValueError with differing messages. -/
theorem unavailable_and_invalid_argument_same_kind_witness :
    errorKind (prodma ⟨some 23, 0⟩ 2 3) = some "ValueError"
    ∧ errorKind (bodma 0 5) = some "ValueError"
    ∧ errorKind (prodma ⟨some 23, 0⟩ 2 3) = errorKind (bodma 0 5)
    ∧ errorMessage (prodma ⟨some 23, 0⟩ 2 3) ≠ errorMessage (bodma 0 5) :=
  unavailable_and_invalid_argument_same_kind ⟨some 23, 0⟩ 2 3 0 5 (by decide) (by norm_num)

/-- C3: when a model turn contains at least one tool call, the loop
appends the model turn and then exactly one tool-result turn — holding
one matching result per call, in the order the model emitted them —
before the next model call; a model turn with zero tool calls ends the
loop with that turn's text as the final answer. -/
theorem conversation_loop_batch_invariant
    (decls : List FunctionDeclaration)
    (model : List FunctionDeclaration → List Content → Content)
    (callTool : FunctionCall → String)
    (fuel : Nat) (cs : List Content) (cats : List (List FunctionDeclaration)) :
    (extractToolCalls (model decls cs) ≠ [] →
        agentLoopAux decls model callTool (fuel + 1) cs cats =
          agentLoopAux decls model callTool fuel
            (cs ++ [model decls cs, resultsTurn callTool (extractToolCalls (model decls cs))])
            (cats ++ [decls])
        ∧ (resultsTurn callTool (extractToolCalls (model decls cs))).parts.length =
            (extractToolCalls (model decls cs)).length
        ∧ ∀ i : Nat,
            (resultsTurn callTool (extractToolCalls (model decls cs))).parts[i]? =
              ((extractToolCalls (model decls cs))[i]?).map (mkResultPart callTool))
    ∧ (extractToolCalls (model decls cs) = [] →
        agentLoopAux decls model callTool (fuel + 1) cs cats =
          ⟨cats ++ [decls], cs ++ [model decls cs], .done (finalText (model decls cs))⟩) := by
  constructor
  · intro h
    refine ⟨?_, by simp [resultsTurn], fun i => ?_⟩
    · simp only [agentLoopAux, if_neg h]
      congr 1
      simp
    · simp [resultsTurn, List.getElem?_map]
  · intro h
    simp only [agentLoopAux, if_pos h]

/-- Witness for C3: one step of the loop on a stub issuing two calls. -/
theorem conversation_loop_batch_invariant_witness :
    agentLoopAux [] twoCallModel stubCallTool (0 + 1) [userTurn "p"] [] =
      agentLoopAux [] twoCallModel stubCallTool 0
        ([userTurn "p"] ++ [twoCallModel [] [userTurn "p"],
          resultsTurn stubCallTool (extractToolCalls (twoCallModel [] [userTurn "p"]))])
        ([] ++ [[]]) :=
  ((conversation_loop_batch_invariant [] twoCallModel stubCallTool 0 [userTurn "p"] []).1
    (by decide)).1

theorem agentLoopAux_catalogs_const (decls : List FunctionDeclaration)
    (model : List FunctionDeclaration → List Content → Content)
    (callTool : FunctionCall → String) :
    ∀ (fuel : Nat) (cs : List Content) (cats : List (List FunctionDeclaration)),
      (∀ c ∈ cats, c = decls) →
      ∀ c ∈ (agentLoopAux decls model callTool fuel cs cats).catalogs, c = decls := by
  intro fuel
  induction fuel with
  | zero =>
    intro cs cats hc
    simpa [agentLoopAux] using hc
  | succ n ih =>
    intro cs cats hc
    by_cases h : extractToolCalls (model decls cs) = []
    · simp only [agentLoopAux, if_pos h]
      intro c hcmem
      rcases List.mem_append.mp hcmem with h1 | h1
      · exact hc c h1
      · simpa using h1
    · simp only [agentLoopAux, if_neg h]
      refine ih _ _ ?_
      intro c hcmem
      rcases List.mem_append.mp hcmem with h1 | h1
      · exact hc c h1
      · simpa using h1

/-- C4 is refuted: starting the agent at hour 11 with a model that issues
one tool call, the schema given to the second model call is still the
catalog fetched at hour 11 (which contains `prodma`), not the regenerated
catalog of hour 23 (which does not) — the catalog is fetched once per
invocation, not per model call. -/
theorem agent_catalog_stale_counterexample :
    (agent ⟨some 11, 0⟩ oneCallModel stubCallTool "p" 2).catalogs[1]? =
      some (get_mcp_tools ⟨some 11, 0⟩)
    ∧ "prodma" ∈ ((get_mcp_tools ⟨some 11, 0⟩).map FunctionDeclaration.name)
    ∧ "prodma" ∉ ((get_mcp_tools ⟨some 23, 0⟩).map FunctionDeclaration.name)
    ∧ (agent ⟨some 11, 0⟩ oneCallModel stubCallTool "p" 2).catalogs[1]? ≠
      some (get_mcp_tools ⟨some 23, 0⟩) := by
  decide

/-- C4 amended: the catalog is fetched once per agent invocation, before
the first model call, and every model call of the loop receives that same
catalog; a tool that becomes available or unavailable between turns is
not reflected. -/
theorem agent_catalog_fetched_once (env0 : Env)
    (model : List FunctionDeclaration → List Content → Content)
    (callTool : FunctionCall → String) (prompt : String) (fuel : Nat)
    (cat : List FunctionDeclaration)
    (hmem : cat ∈ (agent env0 model callTool prompt fuel).catalogs) :
    cat = get_mcp_tools env0 :=
  agentLoopAux_catalogs_const (get_mcp_tools env0) model callTool fuel [userTurn prompt] []
    (by simp) cat hmem

/-- Witness for C4 (amended): the catalog of the second model call of a
concrete run equals the catalog fetched at invocation start. -/
theorem agent_catalog_fetched_once_witness :
    ((agent ⟨some 11, 0⟩ oneCallModel stubCallTool "p" 2).catalogs.getD 1 []) =
      get_mcp_tools ⟨some 11, 0⟩ :=
  agent_catalog_fetched_once ⟨some 11, 0⟩ oneCallModel stubCallTool "p" 2 _ (by decide)

theorem agentLoopAux_fuelOut_of_always_calls (decls : List FunctionDeclaration)
    (model : List FunctionDeclaration → List Content → Content)
    (callTool : FunctionCall → String)
    (h : ∀ cs : List Content, extractToolCalls (model decls cs) ≠ []) :
    ∀ (fuel : Nat) (cs : List Content) (cats : List (List FunctionDeclaration)),
      (agentLoopAux decls model callTool fuel cs cats).outcome = .fuelOut := by
  intro fuel
  induction fuel with
  | zero => intro cs cats; rfl
  | succ n ih =>
    intro cs cats
    simp only [agentLoopAux, if_neg (h cs)]
    exact ih _ _

theorem agentLoopAux_done_exit (decls : List FunctionDeclaration)
    (model : List FunctionDeclaration → List Content → Content)
    (callTool : FunctionCall → String) :
    ∀ (fuel : Nat) (cs : List Content) (cats : List (List FunctionDeclaration))
      (t : Option String),
      (agentLoopAux decls model callTool fuel cs cats).outcome = .done t →
      ∃ cs', extractToolCalls (model decls cs') = [] ∧ t = finalText (model decls cs') := by
  intro fuel
  induction fuel with
  | zero =>
    intro cs cats t h
    exact absurd h (by simp [agentLoopAux])
  | succ n ih =>
    intro cs cats t h
    by_cases hc : extractToolCalls (model decls cs) = []
    · simp only [agentLoopAux, if_pos hc] at h
      exact ⟨cs, hc, by
        have := h
        injection this with hv
        exact hv.symm⟩
    · simp only [agentLoopAux, if_neg hc] at h
      exact ih _ _ _ h

/-- C6: the loop has no termination bound of its own — under a model that
issues at least one tool call on every invocation the loop runs forever
(for every observation fuel it is still running), and the loop exits
exactly when a model turn has zero tool calls (a zero-call turn exits at
once with its text, and any exit stems from a zero-call turn). -/
theorem agent_loop_no_termination_bound :
    (∀ (model : List FunctionDeclaration → List Content → Content)
        (callTool : FunctionCall → String) (env0 : Env) (prompt : String),
        (∀ (decls : List FunctionDeclaration) (cs : List Content),
            extractToolCalls (model decls cs) ≠ []) →
        ∀ fuel : Nat, (agent env0 model callTool prompt fuel).outcome = .fuelOut)
    ∧ (∀ (decls : List FunctionDeclaration)
        (model : List FunctionDeclaration → List Content → Content)
        (callTool : FunctionCall → String)
        (fuel : Nat) (cs : List Content) (cats : List (List FunctionDeclaration)),
        extractToolCalls (model decls cs) = [] →
        (agentLoopAux decls model callTool (fuel + 1) cs cats).outcome =
          .done (finalText (model decls cs)))
    ∧ (∀ (decls : List FunctionDeclaration)
        (model : List FunctionDeclaration → List Content → Content)
        (callTool : FunctionCall → String)
        (fuel : Nat) (cs : List Content) (cats : List (List FunctionDeclaration))
        (t : Option String),
        (agentLoopAux decls model callTool fuel cs cats).outcome = .done t →
        ∃ cs', extractToolCalls (model decls cs') = [] ∧ t = finalText (model decls cs')) := by
  refine ⟨?_, ?_, fun decls model callTool => agentLoopAux_done_exit decls model callTool⟩
  · intro model callTool env0 prompt h fuel
    exact agentLoopAux_fuelOut_of_always_calls (get_mcp_tools env0) model callTool
      (h (get_mcp_tools env0)) fuel [userTurn prompt] []
  · intro decls model callTool fuel cs cats h
    simp only [agentLoopAux, if_pos h]

/-- Witness for C6: with the always-calling stub the loop is still running
after five observed iterations. -/
theorem agent_loop_no_termination_bound_witness :
    (agent ⟨some 11, 0⟩ alwaysCallModel stubCallTool "p" 5).outcome = .fuelOut :=
  agent_loop_no_termination_bound.1 alwaysCallModel stubCallTool ⟨some 11, 0⟩ "p"
    (fun _ _ => List.cons_ne_nil _ _) 5
